import Mathlib

/-!
# Verification of the ufro-master identity-fusion orchestrator

Shallow embedding of the Python sources `src/orchestrator/pp2_client.py`,
`src/orchestrator/fuse.py` and `src/orchestrator/pp1_client.py`, together
with proofs about the decision pipeline (candidate extraction, stable
ranking, the τ/δ decision rule) and the response normalizer.

Python/JSON dynamic values are modelled by the inductive type `JValue`;
Python dicts by association lists in insertion order; Python `float`
numbers by `ℚ` (the claims under study only involve ordering and
equality of scores, never rounding).  Network effects of a backend call
are abstracted into a `CallEvent` describing which execution path the
call took; everything after that point is translated line by line from
the source.
-/

namespace Ufro

/-- A Python/JSON dynamic value.  `null` doubles as Python `None`. -/
inductive JValue where
  | null : JValue
  | bool (b : Bool) : JValue
  | num (q : ℚ) : JValue
  | str (s : String) : JValue
  | arr (xs : List JValue) : JValue
  | obj (kvs : List (String × JValue)) : JValue

/-- Structural equality of dynamic values, modelling Python `==` (in the
source it only ever compares registry names with service names, which
are strings or `None`). -/
def JValue.beq : JValue → JValue → Bool
  | .null, .null => true
  | .bool a, .bool b => a == b
  | .num a, .num b => a == b
  | .str a, .str b => a == b
  | .arr [], .arr [] => true
  | .arr (x :: xs), .arr (y :: ys) => x.beq y && JValue.beq (.arr xs) (.arr ys)
  | .obj [], .obj [] => true
  | .obj ((k, v) :: xs), .obj ((k2, v2) :: ys) =>
      k == k2 && v.beq v2 && JValue.beq (.obj xs) (.obj ys)
  | _, _ => false

/-- Is a dynamic value Python `None`? -/
def JValue.isNull : JValue → Bool
  | .null => true
  | _ => false

/-- A Python dict with string keys, in insertion order. -/
abbrev PyDict := List (String × JValue)

/-- Python truthiness (`bool(v)` / `if v:`). -/
def JValue.truthy : JValue → Bool
  | .null => false
  | .bool b => b
  | .num q => decide (q ≠ 0)
  | .str s => !s.isEmpty
  | .arr xs => !xs.isEmpty
  | .obj kvs => !kvs.isEmpty

/-- The first binding of key `k` in a dict, if any. -/
def findEntry? (k : String) : PyDict → Option (String × JValue)
  | [] => none
  | p :: ps => if p.1 == k then some p else findEntry? k ps

/-- Python `d.get(k)`: the first binding of `k`, else `None`. -/
def pyGet (d : PyDict) (k : String) : JValue :=
  ((findEntry? k d).map (fun p => p.2)).getD .null

/-- Python `d.get(k, dflt)`. -/
def pyGetD (d : PyDict) (k : String) (dflt : JValue) : JValue :=
  ((findEntry? k d).map (fun p => p.2)).getD dflt

/-- Python `k in d` (key membership). -/
def hasKey (d : PyDict) (k : String) : Bool :=
  (findEntry? k d).isSome

/-- Python `a or b` on dynamic values. -/
def pyOr (a b : JValue) : JValue :=
  if a.truthy then a else b

/-- Numeric value of a digit list (most significant first). -/
def digitsVal (cs : List Char) : ℕ :=
  cs.foldl (fun n c => 10 * n + (c.toNat - 48)) 0

/-- Decimal fragment of the grammar accepted by Python `float(str)`:
optional sign, digits with an optional fractional part.  The exotic
forms (`inf`, `nan`, exponents, underscores) are not modelled; no claim
depends on them. -/
def parseFloatStr (s : String) : Option ℚ :=
  let cs := s.trim.toList
  let sgn : ℚ := match cs with
    | '-' :: _ => -1
    | _ => 1
  let body := match cs with
    | '-' :: rest => rest
    | '+' :: rest => rest
    | _ => cs
  let ip := body.takeWhile (fun c => c ≠ '.')
  let rest := body.dropWhile (fun c => c ≠ '.')
  if ip.all Char.isDigit then
    match rest with
    | [] =>
        if ip.isEmpty then none
        else some (sgn * (digitsVal ip : ℚ))
    | _ :: frac =>
        if frac.all Char.isDigit ∧ !(ip.isEmpty ∧ frac.isEmpty) then
          some (sgn * ((digitsVal ip : ℚ) + (digitsVal frac : ℚ) / (10 : ℚ) ^ frac.length))
        else none
  else none

/-- Python `float(v)`: numbers pass through, bools become 0/1, strings
are parsed, and every other value raises (`none`). -/
def pyFloat : JValue → Option ℚ
  | .num q => some q
  | .bool b => some (if b then 1 else 0)
  | .str s => parseFloatStr s
  | _ => none

/-- Python `str(v)`.  The repr of containers is abstracted; no claim
inspects it. -/
def pyStr : JValue → String
  | .str s => s
  | .bool b => if b then "True" else "False"
  | .null => "None"
  | .num q => if q.den = 1 then toString q.num else toString q
  | .arr _ => "[...]"
  | .obj _ => "{...}"

/-! ## `pp2_client.call_verifier`

One verifier backend call.  The network interaction is abstracted into a
`CallEvent`: which of the four `try`/`except` paths of `call_verifier`
the execution took, and what it observed there.  The construction of the
returned record is translated from the source; the audit write
(`_log_service_call`) has no effect on the returned value and is
omitted. -/

/-- Execution path taken by one `call_verifier` invocation.
  * `success status parsed` — the POST returned; `parsed` is the result
    of `response.json()` (`none` when parsing raised);
  * `timeout` — `httpx.TimeoutException`;
  * `connectError d` — `httpx.ConnectError` with message `d`;
  * `otherError d` — any other `Exception` with message `d`. -/
inductive CallEvent where
  | success (status : Int) (parsed : Option JValue) : CallEvent
  | timeout : CallEvent
  | connectError (detail : String) : CallEvent
  | otherError (detail : String) : CallEvent

/-- The normalized outcome record built by `call_verifier` (and, for the
synthetic entries, by `_identify_person_async`).  Field names follow the
dict keys in the source; `result` is the payload (`null` for Python
`None`). -/
structure VerificationOutcome where
  service_name : JValue
  endpoint : JValue
  latency_ms : ℚ
  status_code : Option Int
  result : JValue
  timeout : Bool
  error : Option String

/-- `pp2_client.call_verifier`: the outcome record produced on each
execution path.  `latency` abstracts the wall-clock measurement
`(time.time() - start_time) * 1000` performed on that path. -/
def call_verifier (service_name endpoint : String) (latency : ℚ) :
    CallEvent → VerificationOutcome
  | .success status parsed =>
      { service_name := .str service_name
        endpoint := .str endpoint
        latency_ms := latency
        status_code := some status
        result := parsed.getD .null
        timeout := false
        error := none }
  | .timeout =>
      { service_name := .str service_name
        endpoint := .str endpoint
        latency_ms := latency
        status_code := none
        result := .null
        timeout := true
        error := some "timeout" }
  | .connectError d =>
      { service_name := .str service_name
        endpoint := .str endpoint
        latency_ms := latency
        status_code := none
        result := .null
        timeout := false
        error := some ("connection_error: " ++ d) }
  | .otherError d =>
      { service_name := .str service_name
        endpoint := .str endpoint
        latency_ms := latency
        status_code := none
        result := .null
        timeout := false
        error := some d }

/-- Number of "success/failure" signals set on an outcome record: is the
payload non-null, is the timeout flag set, is the error non-null. -/
def signalCount (o : VerificationOutcome) : ℕ :=
  (if o.result.isNull then 0 else 1) +
    (if o.timeout then 1 else 0) +
    (if o.error.isSome then 1 else 0)

/-! ## `fuse._identify_person_async`

The fan-out.  A registry descriptor is a YAML mapping (`PyDict`).  The
loop in the source dispatches one `call_verifier` task per descriptor
that is active (`v.get("active", True)` truthy) and has a truthy
`endpoint_verify`; `asyncio.gather(..., return_exceptions=True)` then
yields, in dispatch order, either the outcome the call returned or the
exception it raised — abstracted here as a `CallResult` per dispatched
task. -/

/-- What one gathered task settled to: its returned outcome record, or
the exception (`str(r)` = `msg`) it raised. -/
inductive CallResult where
  | ok (outcome : VerificationOutcome) : CallResult
  | exn (msg : String) : CallResult

/-- The `active` filter of the source: `v.get("active", True)` truthy. -/
def isActive (v : PyDict) : Bool :=
  (pyGetD v "active" (.bool true)).truthy

/-- The descriptors for which a task is dispatched: active, with a
truthy `endpoint_verify` (both `continue` statements of the loop). -/
def dispatched (pp2_list : List PyDict) : List PyDict :=
  pp2_list.filter (fun v => isActive v && (pyGet v "endpoint_verify").truthy)

/-- The synthetic outcome the exception handler builds for gather slot
`i`: the descriptor is looked up in `active_services`, the list of
*active* descriptors (the source re-derives the dispatch list here but
omits the `endpoint_verify` filter). -/
def syntheticFor (msg : String) : Option PyDict → VerificationOutcome
  | some v =>
      { service_name := pyGetD v "name" (.str "unknown")
        endpoint := pyGetD v "endpoint_verify" (.str "")
        latency_ms := 0
        status_code := none
        result := .null
        timeout := false
        error := some msg }
  | none =>
      { service_name := .str "unknown"
        endpoint := .str ""
        latency_ms := 0
        status_code := none
        result := .null
        timeout := false
        error := some msg }

/-- See `syntheticFor`: the slot-`i` descriptor is looked up in the
list of *active* descriptors. -/
def syntheticOutcome (pp2_list : List PyDict) (i : ℕ) (msg : String) :
    VerificationOutcome :=
  syntheticFor msg (pp2_list.filter isActive)[i]?

/-- The `for i, r in enumerate(results)` loop over gather results,
starting at slot `i`. -/
def processResultsFrom (pp2_list : List PyDict) (i : ℕ) :
    List CallResult → List VerificationOutcome
  | [] => []
  | .ok o :: rs => o :: processResultsFrom pp2_list (i + 1) rs
  | .exn msg :: rs => syntheticOutcome pp2_list i msg :: processResultsFrom pp2_list (i + 1) rs

/-- `fuse._identify_person_async`: gather results (one `CallResult` per
dispatched task, in dispatch order) are converted into the outcome
list handed to the decision engine. -/
def identify_person_async (pp2_list : List PyDict) (raw : List CallResult) :
    List VerificationOutcome :=
  processResultsFrom pp2_list 0 raw

/-! ## `fuse.identify_person`: candidate extraction -/

/-- A candidate dict as built by `identify_person` (keys `is_me`,
`score`, `threshold`, `timing_ms`, `service`). -/
structure Candidate where
  is_me : Bool
  score : ℚ
  threshold : ℚ
  timing_ms : ℚ
  service : JValue

/-- Is a payload a dict containing the key `score`? -/
def payloadHasScore : JValue → Bool
  | .obj kvs => hasKey kvs "score"
  | _ => false

/-- Does an outcome qualify as a candidate source: its `result` is a
dict containing the key `score`. -/
def hasScorePayload (r : VerificationOutcome) : Bool :=
  payloadHasScore r.result

/-- Assembly of a candidate from the three `float()` conversion
results: all three must have succeeded, otherwise the single `except`
arm resets all four fields to the defaults. -/
def coerceFields (svc : JValue) (me : Bool) :
    Option ℚ → Option ℚ → Option ℚ → Candidate
  | some score, some threshold, some timing_ms =>
      { is_me := me, score := score, threshold := threshold
        timing_ms := timing_ms, service := svc }
  | _, _, _ =>
      { is_me := false, score := 0, threshold := 1/2, timing_ms := 0, service := svc }

/-- The `try`/`except` coercion block of `identify_person`: `bool()`
never raises, so the candidate fields are taken from the payload when
all three `float()` conversions succeed; if any of them raises, all
four fields fall back together. -/
def coerceCandidate (res : PyDict) (svc : JValue) : Candidate :=
  coerceFields svc (pyGetD res "is_me" (.bool false)).truthy
    (pyFloat (pyGetD res "score" (.num 0)))
    (pyFloat (pyGetD res "threshold" (.num (1/2))))
    (pyFloat (pyGetD res "timing_ms" (.num 0)))

/-- The candidates one outcome payload contributes: exactly one when
the payload is a dict containing the key `score`, none otherwise. -/
def candidatesOfPayload (svc : JValue) : JValue → List Candidate
  | .obj kvs => if hasKey kvs "score" then [coerceCandidate kvs svc] else []
  | _ => []

/-- The candidate-building loop of `identify_person`: one candidate per
outcome whose payload is a dict containing `score`, in outcome order. -/
def extractCandidates : List VerificationOutcome → List Candidate
  | [] => []
  | r :: rs => candidatesOfPayload r.service_name r.result ++ extractCandidates rs

/-! ## Ranking

`candidates.sort(key=lambda x: x["score"], reverse=True)` is Python's
stable sort, descending by score: the unique stable sort for the total
preorder "score ≥", realised here by `List.insertionSort`. -/

/-- The ranking preorder: `a` may precede `b` when `a`'s score is at
least `b`'s. -/
def scoreGe (a b : Candidate) : Prop := b.score ≤ a.score

instance : DecidableRel scoreGe := fun a b => inferInstanceAs (Decidable (b.score ≤ a.score))

instance : IsTotal Candidate scoreGe :=
  ⟨fun a b => (le_total b.score a.score).imp id id⟩

instance : IsTrans Candidate scoreGe :=
  ⟨fun _ _ _ h1 h2 => le_trans h2 h1⟩

/-- `candidates.sort(key=lambda x: x["score"], reverse=True)`. -/
def rankCandidates (l : List Candidate) : List Candidate :=
  l.insertionSort scoreGe

/-! ## The τ/δ decision rule -/

/-- The three decisions. -/
inductive Decision where
  | identified : Decision
  | ambiguous : Decision
  | unknown : Decision
deriving DecidableEq

/-- The identity dict built on the `identified` branch. -/
structure Identity where
  score : ℚ
  threshold : ℚ
  is_me : Bool
deriving DecidableEq

/-- The `for v in pp2_list` scan with `break`: the first descriptor
whose `name` equals the given service value. -/
def findDescriptor (service : JValue) : List PyDict → Option PyDict
  | [] => none
  | v :: vs => if (pyGet v "name").beq service then some v else findDescriptor service vs

/-- `float(v.get("threshold", 0.9))` with the `except` arm defaulting
to `0.9` when the conversion raises. -/
def thresholdOfDescriptor (v : PyDict) : ℚ :=
  (pyFloat (pyGetD v "threshold" (.num (9/10)))).getD (9/10)

/-- The registry scan resolving the authoritative τ: the first
descriptor whose `name` equals the top candidate's `service` supplies
`float(v.get("threshold", 0.9))`, falling back to `0.9` when the
conversion raises; if no descriptor matches, `service_threshold` stays
`None` and defaults to `0.9`. -/
def lookupThreshold (pp2_list : List PyDict) (service : JValue) : ℚ :=
  ((findDescriptor service pp2_list).map thresholdOfDescriptor).getD (9/10)

/-- The decision block of `identify_person`, applied to the ranked
candidate list: returns the `decision` string and the optional
`identity` dict. -/
def decideFromCandidates (pp2_list : List PyDict) (delta : ℚ) :
    List Candidate → Decision × Option Identity
  | [] => (.unknown, none)
  | [top] =>
      let st := lookupThreshold pp2_list top.service
      if top.is_me = true ∧ st ≤ top.score then
        (.identified, some ⟨top.score, st, top.is_me⟩)
      else if st ≤ top.score then (.unknown, none)
      else (.unknown, none)
  | top :: second :: _ =>
      let st := lookupThreshold pp2_list top.service
      if top.is_me = true ∧ st ≤ top.score then
        if top.score - second.score ≤ delta then (.ambiguous, none)
        else (.identified, some ⟨top.score, st, top.is_me⟩)
      else if st ≤ top.score then (.unknown, none)
      else (.unknown, none)

/-- The value returned by `identify_person` (the timing and request-id
bookkeeping and the best-effort audit insert do not affect these
fields). -/
structure IdentifyResult where
  decision : Decision
  identity : Option Identity
  candidates : List Candidate

/-- `fuse.identify_person`, from the gathered outcome list on: extract
candidates, rank them, decide. -/
def identify_person (pp2_list : List PyDict) (results : List VerificationOutcome)
    (delta : ℚ) : IdentifyResult :=
  let candidates := rankCandidates (extractCandidates results)
  let di := decideFromCandidates pp2_list delta candidates
  { decision := di.1, identity := di.2, candidates := candidates }

/-! ## `pp1_client.normalize_citation` -/

/-- The `or`-chain over the doc alias keys. -/
def docAlias (c : PyDict) : JValue :=
  pyOr (pyGet c "doc") (pyOr (pyGet c "document") (pyOr (pyGet c "title") (pyGet c "name")))

/-- The `or`-chain over the page alias keys. -/
def pageAlias (c : PyDict) : JValue :=
  pyOr (pyGet c "page") (pyGet c "p")

/-- The `or`-chain over the section alias keys. -/
def sectionAlias (c : PyDict) : JValue :=
  pyOr (pyGet c "section") (pyOr (pyGet c "sec") (pyGet c "section_number"))

/-- The `or`-chain over the url alias keys. -/
def urlAlias (c : PyDict) : JValue :=
  pyOr (pyGet c "url") (pyOr (pyGet c "link") (pyGet c "href"))

/-- `pp1_client.normalize_citation`: non-dicts and dicts with no truthy
doc alias yield `None`; otherwise the normalized dict is built in
insertion order `doc`, then `page` *or* `section` (page only when its
alias value is truthy, section only otherwise), then `url` (defaulting
to the empty string). -/
def normalize_citation : JValue → Option (List (String × String))
  | .obj kvs =>
      let doc := docAlias kvs
      if doc.truthy then
        let page := pageAlias kvs
        let sect := sectionAlias kvs
        let url := urlAlias kvs
        some ([("doc", pyStr doc)] ++
          (if page.truthy then [("page", pyStr page)]
           else if sect.truthy then [("section", pyStr sect)]
           else []) ++
          [("url", if url.truthy then pyStr url else "")])
      else none
  | _ => none

/-- Candidates agreeing on every field the decision block reads
(`is_me`, `score`, `service`) — the self-reported `threshold` and
`timing_ms` are left free. -/
def sameDecisionFields (a b : Candidate) : Prop :=
  a.is_me = b.is_me ∧ a.score = b.score ∧ a.service = b.service

/-! ## Concrete instances used by witnesses and counterexamples -/

/-- A registry with two verifier descriptors `A` and `B`, both with
threshold `0.9`. -/
def regW : List PyDict :=
  [[("name", .str "A"), ("endpoint_verify", .str "http://a"), ("threshold", .num (9/10))],
   [("name", .str "B"), ("endpoint_verify", .str "http://b"), ("threshold", .num (9/10))]]

/-- A well-formed verifier outcome for service `name` with score `sc`. -/
def outW (name : String) (sc : ℚ) (me : Bool) : VerificationOutcome :=
  { service_name := .str name
    endpoint := .str ("http://" ++ name)
    latency_ms := 10
    status_code := some 200
    result := .obj [("is_me", .bool me), ("score", .num sc),
      ("threshold", .num (9/10)), ("timing_ms", .num 5)]
    timeout := false
    error := none }

/-- The candidate `identify_person` derives from `outW name sc me`. -/
def candW (name : String) (sc : ℚ) (me : Bool) : Candidate :=
  { is_me := me, score := sc, threshold := 9/10, timing_ms := 5, service := .str name }

/-- An outcome whose payload has a well-formed score `0.95` next to a
malformed (`null`) threshold. -/
def oC5 : VerificationOutcome :=
  { service_name := .str "A"
    endpoint := .str "http://a"
    latency_ms := 10
    status_code := some 200
    result := .obj [("is_me", .bool true), ("score", .num (19/20)), ("threshold", .null)]
    timeout := false
    error := none }

/-- A citation carrying a truthy doc, a *falsy* (empty-string) page and
a truthy section. -/
def citC9 : JValue :=
  .obj [("doc", .str "D"), ("page", .str ""), ("section", .str "12")]

/-- A registry whose first descriptor is active but has an empty
`endpoint_verify` (so it is never dispatched) and whose second is
dispatched. -/
def regC3 : List PyDict :=
  [[("name", .str "A"), ("endpoint_verify", .str "")],
   [("name", .str "B"), ("endpoint_verify", .str "http://b")]]

/-! ## Helper lemmas -/

/-- The score-equality test used to state sort stability. -/
def scoreIs (s : ℚ) (d : Candidate) : Bool := decide (d.score = s)

theorem filter_orderedInsert_of_eq (s : ℚ) (c : Candidate) (hc : c.score = s) :
    ∀ l : List Candidate,
      (List.orderedInsert scoreGe c l).filter (scoreIs s) = c :: l.filter (scoreIs s)
  | [] => by simp [List.orderedInsert, scoreIs, hc]
  | d :: ds => by
      by_cases h : scoreGe c d
      · simp [List.orderedInsert, h, scoreIs, hc]
      · have hd : ¬ d.score = s := by
          intro hds
          exact h (le_of_eq (hds.trans hc.symm))
        rw [List.orderedInsert, if_neg h, List.filter_cons,
          filter_orderedInsert_of_eq s c hc ds]
        simp [scoreIs, hd]

theorem filter_orderedInsert_of_ne (s : ℚ) (c : Candidate) (hc : ¬ c.score = s) :
    ∀ l : List Candidate,
      (List.orderedInsert scoreGe c l).filter (scoreIs s) = l.filter (scoreIs s)
  | [] => by simp [List.orderedInsert, scoreIs, hc]
  | d :: ds => by
      by_cases h : scoreGe c d
      · simp [List.orderedInsert, h, scoreIs, hc]
      · rw [List.orderedInsert, if_neg h, List.filter_cons, List.filter_cons,
          filter_orderedInsert_of_ne s c hc ds]

/-- Stability of the ranking: the subsequence of candidates having any
fixed score is untouched by the sort. -/
theorem rankCandidates_cons (c : Candidate) (l : List Candidate) :
    rankCandidates (c :: l) = List.orderedInsert scoreGe c (rankCandidates l) := rfl

theorem filter_rankCandidates (s : ℚ) :
    ∀ l : List Candidate, (rankCandidates l).filter (scoreIs s) = l.filter (scoreIs s)
  | [] => rfl
  | c :: l => by
      by_cases hc : c.score = s
      · rw [rankCandidates_cons, filter_orderedInsert_of_eq s c hc,
          filter_rankCandidates s l, List.filter_cons]
        simp [scoreIs, hc]
      · rw [rankCandidates_cons, filter_orderedInsert_of_ne s c hc,
          filter_rankCandidates s l, List.filter_cons]
        simp [scoreIs, hc]

theorem decideFromCandidates_nil (pp2_list : List PyDict) (delta : ℚ) :
    decideFromCandidates pp2_list delta [] = (.unknown, none) := rfl

theorem decideFromCandidates_neg (pp2_list : List PyDict) (delta : ℚ)
    (top : Candidate) (rest : List Candidate)
    (h : ¬ (top.is_me = true ∧ lookupThreshold pp2_list top.service ≤ top.score)) :
    decideFromCandidates pp2_list delta (top :: rest) = (.unknown, none) := by
  cases rest <;> · simp only [decideFromCandidates, if_neg h]; split <;> rfl

theorem decideFromCandidates_single (pp2_list : List PyDict) (delta : ℚ)
    (top : Candidate) (h1 : top.is_me = true)
    (h2 : lookupThreshold pp2_list top.service ≤ top.score) :
    decideFromCandidates pp2_list delta [top] =
      (.identified, some ⟨top.score, lookupThreshold pp2_list top.service, true⟩) := by
  have hc : top.is_me = true ∧ lookupThreshold pp2_list top.service ≤ top.score := ⟨h1, h2⟩
  simp only [decideFromCandidates, if_pos hc, h1]
  simp [h2]

theorem decideFromCandidates_amb (pp2_list : List PyDict) (delta : ℚ)
    (top second : Candidate) (rest : List Candidate) (h1 : top.is_me = true)
    (h2 : lookupThreshold pp2_list top.service ≤ top.score)
    (h3 : top.score - second.score ≤ delta) :
    decideFromCandidates pp2_list delta (top :: second :: rest) = (.ambiguous, none) := by
  have hc : top.is_me = true ∧ lookupThreshold pp2_list top.service ≤ top.score := ⟨h1, h2⟩
  simp only [decideFromCandidates, if_pos hc, if_pos h3]

theorem decideFromCandidates_clear (pp2_list : List PyDict) (delta : ℚ)
    (top second : Candidate) (rest : List Candidate) (h1 : top.is_me = true)
    (h2 : lookupThreshold pp2_list top.service ≤ top.score)
    (h3 : ¬ top.score - second.score ≤ delta) :
    decideFromCandidates pp2_list delta (top :: second :: rest) =
      (.identified, some ⟨top.score, lookupThreshold pp2_list top.service, true⟩) := by
  have hc : top.is_me = true ∧ lookupThreshold pp2_list top.service ≤ top.score := ⟨h1, h2⟩
  simp only [decideFromCandidates, if_pos hc, if_neg h3, h1]
  simp [h2]

theorem identify_person_decision (pp2_list : List PyDict)
    (results : List VerificationOutcome) (delta : ℚ) :
    (identify_person pp2_list results delta).decision =
      (decideFromCandidates pp2_list delta
        (rankCandidates (extractCandidates results))).1 := rfl

theorem identify_person_identity (pp2_list : List PyDict)
    (results : List VerificationOutcome) (delta : ℚ) :
    (identify_person pp2_list results delta).identity =
      (decideFromCandidates pp2_list delta
        (rankCandidates (extractCandidates results))).2 := rfl

theorem identify_person_candidates (pp2_list : List PyDict)
    (results : List VerificationOutcome) (delta : ℚ) :
    (identify_person pp2_list results delta).candidates =
      rankCandidates (extractCandidates results) := rfl

/-- Shape of the decision pair: either the identity is `none` and the
decision is not `identified`, or the list is non-empty, the decision is
`identified` and the identity is built from the top candidate and the
registry threshold. -/
theorem decide_shape (pp2_list : List PyDict) (delta : ℚ) :
    ∀ l : List Candidate,
      (decideFromCandidates pp2_list delta l).2 = none ∧
        (decideFromCandidates pp2_list delta l).1 ≠ .identified ∨
      ∃ top rest, l = top :: rest ∧
        (decideFromCandidates pp2_list delta l).1 = .identified ∧
        (decideFromCandidates pp2_list delta l).2 =
          some ⟨top.score, lookupThreshold pp2_list top.service, true⟩
  | [] => by
      rw [decideFromCandidates_nil]
      exact .inl ⟨rfl, by simp⟩
  | top :: rest => by
      by_cases hc : top.is_me = true ∧ lookupThreshold pp2_list top.service ≤ top.score
      · rcases rest with _ | ⟨second, rest2⟩
        · rw [decideFromCandidates_single pp2_list delta top hc.1 hc.2]
          exact .inr ⟨top, [], rfl, rfl, rfl⟩
        · by_cases h3 : top.score - second.score ≤ delta
          · rw [decideFromCandidates_amb pp2_list delta top second rest2 hc.1 hc.2 h3]
            exact .inl ⟨rfl, by simp⟩
          · rw [decideFromCandidates_clear pp2_list delta top second rest2 hc.1 hc.2 h3]
            exact .inr ⟨top, second :: rest2, rfl, rfl, rfl⟩
      · rw [decideFromCandidates_neg pp2_list delta top rest hc]
        exact .inl ⟨rfl, by simp⟩

theorem JValue.isNull_iff (v : JValue) : v.isNull = true ↔ v = .null := by
  cases v <;> simp [JValue.isNull]

/-! ## Claim theorems -/

/-- C6: ranking sorts the candidate list by score descending and is
stable — the subsequence of candidates carrying any given score is
exactly the same, in the same order, before and after ranking; and the
candidate list `identify_person` returns (and decides over) is exactly
this ranking of the extraction-ordered candidates. -/
theorem C6_stable_ranking :
    (∀ l : List Candidate,
      (rankCandidates l).Pairwise (fun a b => b.score ≤ a.score)) ∧
    (∀ (l : List Candidate) (s : ℚ),
      (rankCandidates l).filter (scoreIs s) = l.filter (scoreIs s)) ∧
    (∀ (pp2_list : List PyDict) (results : List VerificationOutcome) (delta : ℚ),
      (identify_person pp2_list results delta).candidates =
        rankCandidates (extractCandidates results)) :=
  ⟨fun l => List.sorted_insertionSort scoreGe l,
   fun l s => filter_rankCandidates s l,
   fun _ _ _ => rfl⟩

/-- C1: the decision engine follows the §4.3 algorithm.  With no
candidates the decision is `unknown` with null identity; when the
top-ranked candidate has `is_me` true and score ≥ the authoritative τ,
the decision is `ambiguous` with null identity exactly when a second
candidate exists whose score is within `delta` of the top score
(regardless of that candidate's `is_me`), and otherwise `identified`
with identity `{score := top.score, threshold := τ, is_me := true}`; in
every other case (`is_me` false, or top score < τ) the decision is
`unknown` with null identity. -/
theorem C1_decision_rule (pp2_list : List PyDict)
    (results : List VerificationOutcome) (delta : ℚ) :
    ((identify_person pp2_list results delta).candidates = [] →
      (identify_person pp2_list results delta).decision = .unknown ∧
      (identify_person pp2_list results delta).identity = none) ∧
    (∀ top rest,
      (identify_person pp2_list results delta).candidates = top :: rest →
      (top.is_me = true → lookupThreshold pp2_list top.service ≤ top.score →
        (∀ second rest2, rest = second :: rest2 →
          top.score - second.score ≤ delta →
          (identify_person pp2_list results delta).decision = .ambiguous ∧
          (identify_person pp2_list results delta).identity = none) ∧
        ((rest = [] ∨ ∃ second rest2, rest = second :: rest2 ∧
            delta < top.score - second.score) →
          (identify_person pp2_list results delta).decision = .identified ∧
          (identify_person pp2_list results delta).identity =
            some ⟨top.score, lookupThreshold pp2_list top.service, true⟩)) ∧
      ((top.is_me = false ∨ top.score < lookupThreshold pp2_list top.service) →
        (identify_person pp2_list results delta).decision = .unknown ∧
        (identify_person pp2_list results delta).identity = none)) := by
  simp only [identify_person_decision, identify_person_identity, identify_person_candidates]
  constructor
  · intro h
    rw [h, decideFromCandidates_nil]
    exact ⟨rfl, rfl⟩
  · intro top rest h
    rw [h]
    refine ⟨fun h1 h2 => ⟨?_, ?_⟩, ?_⟩
    · intro second rest2 hr hdelta
      subst hr
      rw [decideFromCandidates_amb pp2_list delta top second rest2 h1 h2 hdelta]
      exact ⟨rfl, rfl⟩
    · rintro (rfl | ⟨second, rest2, rfl, hgt⟩)
      · rw [decideFromCandidates_single pp2_list delta top h1 h2]
        exact ⟨rfl, rfl⟩
      · rw [decideFromCandidates_clear pp2_list delta top second rest2 h1 h2 (not_le.mpr hgt)]
        exact ⟨rfl, rfl⟩
    · intro hneg
      have hn : ¬ (top.is_me = true ∧ lookupThreshold pp2_list top.service ≤ top.score) := by
        rcases hneg with hm | hs
        · rintro ⟨ha, -⟩
          rw [hm] at ha
          exact Bool.false_ne_true ha
        · rintro ⟨-, hb⟩
          exact absurd hb (not_le.mpr hs)
      rw [decideFromCandidates_neg pp2_list delta top rest hn]
      exact ⟨rfl, rfl⟩

/-- C1 witness: on the spec's own scenario — A scoring 0.97 with
`is_me`, B scoring 0.95, τ = 0.9, δ = 0.05 — the engine reports
`ambiguous` with null identity. -/
theorem C1_decision_rule_witness :
    (identify_person regW [outW "A" (97/100) true, outW "B" (95/100) true] (1/20)).decision
        = .ambiguous ∧
    (identify_person regW [outW "A" (97/100) true, outW "B" (95/100) true] (1/20)).identity
        = none := by
  have hc : (identify_person regW [outW "A" (97/100) true, outW "B" (95/100) true]
      (1/20)).candidates = [candW "A" (97/100) true, candW "B" (95/100) true] := by
    simp +decide [identify_person, extractCandidates, candidatesOfPayload, outW, candW,
      hasKey, findEntry?, coerceCandidate, coerceFields, pyGetD, pyFloat, JValue.truthy,
      rankCandidates, List.insertionSort, List.orderedInsert, scoreGe]
    norm_num
  have ht : lookupThreshold regW (candW "A" (97/100) true).service
      ≤ (candW "A" (97/100) true).score := by
    have : lookupThreshold regW (.str "A") = 9/10 := by
      simp +decide [lookupThreshold, findDescriptor, thresholdOfDescriptor, regW, pyGet,
        pyGetD, pyFloat, findEntry?, JValue.beq]
    simp only [candW, this]
    norm_num
  exact (((C1_decision_rule regW [outW "A" (97/100) true, outW "B" (95/100) true]
      (1/20)).2 (candW "A" (97/100) true) [candW "B" (95/100) true] hc).1 rfl ht).1
      (candW "B" (95/100) true) [] rfl (by norm_num [candW])

/-- C7: for a fixed outcome list and registry snapshot, shrinking the
ambiguity margin δ can only move the decision from `ambiguous` to
`identified`, never the reverse, and never moves any result to or from
`unknown`. -/
theorem C7_delta_monotone (pp2_list : List PyDict)
    (results : List VerificationOutcome) (delta1 delta2 : ℚ) (h : delta1 ≤ delta2) :
    ((identify_person pp2_list results delta2).decision = .identified →
      (identify_person pp2_list results delta1).decision = .identified) ∧
    ((identify_person pp2_list results delta1).decision = .ambiguous →
      (identify_person pp2_list results delta2).decision = .ambiguous) ∧
    ((identify_person pp2_list results delta1).decision = .unknown ↔
      (identify_person pp2_list results delta2).decision = .unknown) := by
  simp only [identify_person_decision]
  rcases hl : rankCandidates (extractCandidates results) with - | ⟨top, rest⟩
  · rw [decideFromCandidates_nil, decideFromCandidates_nil]
    simp
  · by_cases hc : top.is_me = true ∧ lookupThreshold pp2_list top.service ≤ top.score
    · rcases rest with - | ⟨second, rest2⟩
      · rw [decideFromCandidates_single pp2_list delta1 top hc.1 hc.2,
          decideFromCandidates_single pp2_list delta2 top hc.1 hc.2]
        simp
      · by_cases h1 : top.score - second.score ≤ delta1
        · have h2 : top.score - second.score ≤ delta2 := le_trans h1 h
          rw [decideFromCandidates_amb pp2_list delta1 top second rest2 hc.1 hc.2 h1,
            decideFromCandidates_amb pp2_list delta2 top second rest2 hc.1 hc.2 h2]
          simp
        · by_cases h2 : top.score - second.score ≤ delta2
          · rw [decideFromCandidates_clear pp2_list delta1 top second rest2 hc.1 hc.2 h1,
              decideFromCandidates_amb pp2_list delta2 top second rest2 hc.1 hc.2 h2]
            simp
          · rw [decideFromCandidates_clear pp2_list delta1 top second rest2 hc.1 hc.2 h1,
              decideFromCandidates_clear pp2_list delta2 top second rest2 hc.1 hc.2 h2]
            simp
    · rw [decideFromCandidates_neg pp2_list delta1 top rest hc,
        decideFromCandidates_neg pp2_list delta2 top rest hc]
      simp

/-- C7 witness: with δ shrunk from 0.05 to 0, unknown-ness of the
decision on the two-candidate scenario is unchanged. -/
theorem C7_delta_monotone_witness :
    (identify_person regW [outW "A" (97/100) true, outW "B" (95/100) true] 0).decision
        = .unknown ↔
    (identify_person regW [outW "A" (97/100) true, outW "B" (95/100) true] (1/20)).decision
        = .unknown :=
  (C7_delta_monotone regW [outW "A" (97/100) true, outW "B" (95/100) true]
    0 (1/20) (by norm_num)).2.2

/-- C10: the identity field is populated exactly on `identified`
decisions, and then carries the top-ranked candidate's score, the
registry-resolved τ and `is_me := true`. -/
theorem C10_identity_invariant (pp2_list : List PyDict)
    (results : List VerificationOutcome) (delta : ℚ) :
    ((identify_person pp2_list results delta).identity ≠ none ↔
      (identify_person pp2_list results delta).decision = .identified) ∧
    (∀ idy, (identify_person pp2_list results delta).identity = some idy →
      ∃ top rest, (identify_person pp2_list results delta).candidates = top :: rest ∧
        idy = ⟨top.score, lookupThreshold pp2_list top.service, true⟩) := by
  simp only [identify_person_decision, identify_person_identity, identify_person_candidates]
  rcases decide_shape pp2_list delta (rankCandidates (extractCandidates results)) with
    ⟨h1, h2⟩ | ⟨top, rest, hl, h1, h2⟩
  · rw [h1]
    refine ⟨⟨fun hn => absurd rfl hn, fun hd => absurd hd h2⟩, ?_⟩
    intro idy hidy
    exact absurd hidy (by simp)
  · rw [h1, h2]
    refine ⟨⟨fun _ => rfl, fun _ => by simp⟩, ?_⟩
    intro idy hidy
    exact ⟨top, rest, hl, (Option.some_inj.mp hidy).symm⟩

/-- C10 witness: on the lone-candidate scenario the identity is
populated, so the decision is `identified`. -/
theorem C10_identity_invariant_witness :
    (identify_person regW [outW "A" (97/100) true] (1/20)).decision = .identified :=
  (C10_identity_invariant regW [outW "A" (97/100) true] (1/20)).1.mp (by
    have hi : (identify_person regW [outW "A" (97/100) true] (1/20)).identity
        = some ⟨97/100, 9/10, true⟩ := by
      simp +decide [identify_person, extractCandidates, candidatesOfPayload, outW,
        hasKey, findEntry?, coerceCandidate, coerceFields, pyGetD, pyGet, pyFloat,
        JValue.truthy, rankCandidates, List.insertionSort, List.orderedInsert, scoreGe,
        decideFromCandidates, lookupThreshold, findDescriptor, thresholdOfDescriptor,
        regW, JValue.beq]
      norm_num
    rw [hi]
    simp)

/-- C2: the decision reads no candidate's self-reported `threshold`
(or `timing_ms`) field; the τ it uses is resolved from the registry by
the top candidate's service name alone, with the value
`float(v.get("threshold", 0.9))` of the first matching descriptor,
defaulting to `0.9` when no descriptor matches or the conversion
raises. -/
theorem C2_authoritative_threshold :
    (∀ (pp2_list : List PyDict) (delta : ℚ) (l l2 : List Candidate),
      List.Forall₂ sameDecisionFields l l2 →
      decideFromCandidates pp2_list delta l = decideFromCandidates pp2_list delta l2) ∧
    (∀ (pp2_list : List PyDict) (delta : ℚ) (top : Candidate) (rest : List Candidate)
        (idy : Identity),
      (decideFromCandidates pp2_list delta (top :: rest)).2 = some idy →
      idy.threshold = lookupThreshold pp2_list top.service) ∧
    (∀ (pp2a pp2b : List PyDict) (delta : ℚ) (top : Candidate) (rest : List Candidate),
      lookupThreshold pp2a top.service = lookupThreshold pp2b top.service →
      decideFromCandidates pp2a delta (top :: rest) =
        decideFromCandidates pp2b delta (top :: rest)) ∧
    (∀ (pp2_list : List PyDict) (service : JValue),
      (findDescriptor service pp2_list = none →
        lookupThreshold pp2_list service = 9/10) ∧
      (∀ v, findDescriptor service pp2_list = some v →
        (pyFloat (pyGetD v "threshold" (.num (9/10))) = none →
          lookupThreshold pp2_list service = 9/10) ∧
        (∀ q, pyFloat (pyGetD v "threshold" (.num (9/10))) = some q →
          lookupThreshold pp2_list service = q))) := by
  refine ⟨?_, ?_, ?_, ?_⟩
  · intro pp2 delta l l2 hf
    rcases hf with - | ⟨⟨hme, hsc, hsv⟩, hf2⟩
    · rfl
    · rcases hf2 with - | ⟨⟨-, hsc2, -⟩, -⟩
      · simp only [decideFromCandidates, hme, hsc, hsv]
      · simp only [decideFromCandidates, hme, hsc, hsv, hsc2]
  · intro pp2 delta top rest idy hidy
    rcases decide_shape pp2 delta (top :: rest) with ⟨h1, -⟩ | ⟨top2, rest2, heq, -, h2⟩
    · rw [h1] at hidy
      cases hidy
    · injection heq with h3 h4
      subst h3
      rw [h2] at hidy
      obtain rfl := Option.some_inj.mp hidy
      rfl
  · intro pp2a pp2b delta top rest hth
    rcases rest with - | ⟨second, rest2⟩ <;> simp only [decideFromCandidates, hth]
  · intro pp2 service
    refine ⟨fun hnone => by simp [lookupThreshold, hnone], fun v hv => ⟨?_, ?_⟩⟩
    · intro hpf
      simp [lookupThreshold, thresholdOfDescriptor, hv, hpf]
    · intro q hq
      simp [lookupThreshold, thresholdOfDescriptor, hv, hq]

/-- C2 witness: changing a candidate's self-reported threshold (and
timing) leaves the decision unchanged, and the τ for a service absent
from the registry is 0.9. -/
theorem C2_authoritative_threshold_witness :
    decideFromCandidates regW (1/20) [⟨true, 1, 1/2, 0, .str "S"⟩]
        = decideFromCandidates regW (1/20) [⟨true, 1, 1/4, 3, .str "S"⟩] ∧
    lookupThreshold [] (.str "X") = 9/10 :=
  ⟨C2_authoritative_threshold.1 regW (1/20) _ _
      (List.Forall₂.cons ⟨rfl, rfl, rfl⟩ List.Forall₂.nil),
   (C2_authoritative_threshold.2.2.2 [] (.str "X")).1 rfl⟩

/-- C4 counterexample: "exactly one of {payload non-null, timed_out,
error non-null}" fails on two paths of `call_verifier` — the timeout
path sets both `timed_out` and `error` (two signals), and a successful
call whose body fails to parse sets none of the three (zero signals). -/
theorem C4_exclusivity_counterexample :
    ¬ signalCount (call_verifier "svc" "http://v" 1 .timeout) = 1 ∧
    ¬ signalCount (call_verifier "svc" "http://v" 1 (.success 200 none)) = 1 ∧
    signalCount (call_verifier "svc" "http://v" 1 .timeout) = 2 ∧
    signalCount (call_verifier "svc" "http://v" 1 (.success 200 none)) = 0 := by
  refine ⟨?_, ?_, rfl, rfl⟩ <;> simp [signalCount, call_verifier, JValue.isNull]

/-- C4 (amended): on a successful call the signal is the payload alone
(`timed_out` false, `error` null) — one signal when the parsed body is
non-null, zero when it is null or unparseable; the timeout path sets
both `timed_out` and `error = "timeout"` (two signals); connection and
other transport failures set exactly the error (one signal). -/
theorem C4_signal_shape (sn ep : String) (lat : ℚ) :
    (∀ (status : Int) (parsed : Option JValue),
      (parsed.getD .null = .null →
        signalCount (call_verifier sn ep lat (.success status parsed)) = 0) ∧
      (¬ parsed.getD .null = .null →
        signalCount (call_verifier sn ep lat (.success status parsed)) = 1)) ∧
    (signalCount (call_verifier sn ep lat .timeout) = 2 ∧
      (call_verifier sn ep lat .timeout).timeout = true ∧
      (call_verifier sn ep lat .timeout).error = some "timeout") ∧
    (∀ d, signalCount (call_verifier sn ep lat (.connectError d)) = 1) ∧
    (∀ d, signalCount (call_verifier sn ep lat (.otherError d)) = 1) ∧
    (∀ ev, ¬ (call_verifier sn ep lat ev).result = .null →
      (call_verifier sn ep lat ev).timeout = false ∧
        (call_verifier sn ep lat ev).error = none) := by
  refine ⟨?_, ⟨rfl, rfl, rfl⟩, fun d => rfl, fun d => rfl, ?_⟩
  · intro status parsed
    constructor
    · intro hnull
      simp [signalCount, call_verifier, hnull, JValue.isNull]
    · intro hnn
      rcases hp : parsed.getD .null with - | b | q | s | xs | kvs <;>
        simp_all [signalCount, call_verifier, JValue.isNull]
  · intro ev hnn
    cases ev with
    | success status parsed => exact ⟨rfl, rfl⟩
    | timeout => exact absurd rfl hnn
    | connectError d => exact absurd rfl hnn
    | otherError d => exact absurd rfl hnn

/-- C4 witness: a parsed non-null body carries exactly one signal, and
a payload-bearing outcome has neither failure signal set. -/
theorem C4_signal_shape_witness :
    signalCount (call_verifier "svc" "http://v" 1
        (.success 200 (some (.obj [("score", .num 1)])))) = 1 ∧
    (call_verifier "svc" "http://v" 1
        (.success 200 (some (.obj [("score", .num 1)])))).timeout = false :=
  ⟨((C4_signal_shape "svc" "http://v" 1).1 200 (some (.obj [("score", .num 1)]))).2
      (fun h => JValue.noConfusion h),
   ((C4_signal_shape "svc" "http://v" 1).2.2.2.2 (.success 200
      (some (.obj [("score", .num 1)]))) (fun h => JValue.noConfusion h)).1⟩

/-- C8: `call_verifier` yields a normalized outcome record on every
execution path — the service name, endpoint and measured latency are
always recorded; a timeout yields `timed_out = true`,
`error = "timeout"` and a null payload; a connection failure yields an
error beginning with `"connection_error: "`. -/
theorem C8_adapter_normalizes (sn ep : String) (lat : ℚ) (ev : CallEvent) :
    (call_verifier sn ep lat ev).service_name = .str sn ∧
    (call_verifier sn ep lat ev).endpoint = .str ep ∧
    (call_verifier sn ep lat ev).latency_ms = lat ∧
    (ev = .timeout →
      (call_verifier sn ep lat ev).timeout = true ∧
      (call_verifier sn ep lat ev).error = some "timeout" ∧
      (call_verifier sn ep lat ev).result = .null) ∧
    (∀ d, ev = .connectError d →
      ∃ t, (call_verifier sn ep lat ev).error = some ("connection_error: " ++ t)) := by
  cases ev with
  | success status parsed =>
      exact ⟨rfl, rfl, rfl, fun h => CallEvent.noConfusion h,
        fun d h => CallEvent.noConfusion h⟩
  | timeout =>
      exact ⟨rfl, rfl, rfl, fun _ => ⟨rfl, rfl, rfl⟩, fun d h => CallEvent.noConfusion h⟩
  | connectError d =>
      refine ⟨rfl, rfl, rfl, fun h => CallEvent.noConfusion h, fun d2 h => ⟨d, rfl⟩⟩
  | otherError d =>
      exact ⟨rfl, rfl, rfl, fun h => CallEvent.noConfusion h,
        fun d2 h => CallEvent.noConfusion h⟩

/-- C8 witness: the timeout path instantiated concretely. -/
theorem C8_adapter_normalizes_witness :
    (call_verifier "svc" "http://v" 7 .timeout).timeout = true ∧
    (call_verifier "svc" "http://v" 7 .timeout).error = some "timeout" ∧
    (call_verifier "svc" "http://v" 7 .timeout).result = .null :=
  (C8_adapter_normalizes "svc" "http://v" 7 .timeout).2.2.2.1 rfl

/-- Length of one payload's candidate contribution. -/
theorem length_candidatesOfPayload (svc : JValue) (res : JValue) :
    (candidatesOfPayload svc res).length = if payloadHasScore res = true then 1 else 0 := by
  rcases res with - | b | q | s | xs | kvs <;> simp [candidatesOfPayload, payloadHasScore]
  by_cases h : hasKey kvs "score" = true <;> simp [h]

/-- C5 counterexample: an outcome whose payload holds the well-formed
score 0.95 (and `is_me` true) next to a malformed (`null`) threshold
produces a candidate whose score has been reset to 0 and whose `is_me`
has been reset to false — the well-formed fields are not left intact. -/
theorem C5_individual_default_counterexample :
    hasScorePayload oC5 = true ∧
    (extractCandidates [oC5]).map Candidate.score = [0] ∧
    ¬ (extractCandidates [oC5]).map Candidate.score = [19/20] ∧
    (extractCandidates [oC5]).map Candidate.is_me = [false] := by
  refine ⟨rfl, rfl, ?_, rfl⟩
  intro h
  rw [show (extractCandidates [oC5]).map Candidate.score = [0] from rfl] at h
  injection h with h1 h2
  norm_num at h1

/-- C5 (amended): every outcome whose payload is a dict containing
`score` yields exactly one candidate (none are discarded); the fields
are taken from the payload when all three `float()` conversions
(`score`, `threshold`, `timing_ms`) succeed — absent keys defaulting
individually through `get` — but when any of the three conversions
fails, all four fields fall back together to `is_me = false`,
`score = 0`, `threshold = 0.5`, `timing_ms = 0`. -/
theorem C5_collective_default (results : List VerificationOutcome) :
    (extractCandidates results).length = (results.filter hasScorePayload).length ∧
    (∀ (r : VerificationOutcome) (kvs : PyDict),
      r.result = .obj kvs → hasKey kvs "score" = true →
      (∀ sc th tm,
        pyFloat (pyGetD kvs "score" (.num 0)) = some sc →
        pyFloat (pyGetD kvs "threshold" (.num (1/2))) = some th →
        pyFloat (pyGetD kvs "timing_ms" (.num 0)) = some tm →
        extractCandidates [r] =
          [⟨(pyGetD kvs "is_me" (.bool false)).truthy, sc, th, tm, r.service_name⟩]) ∧
      ((pyFloat (pyGetD kvs "score" (.num 0)) = none ∨
        pyFloat (pyGetD kvs "threshold" (.num (1/2))) = none ∨
        pyFloat (pyGetD kvs "timing_ms" (.num 0)) = none) →
        extractCandidates [r] = [⟨false, 0, 1/2, 0, r.service_name⟩])) := by
  constructor
  · induction results with
    | nil => rfl
    | cons r rs ih =>
        rw [extractCandidates, List.filter_cons, List.length_append,
          length_candidatesOfPayload, hasScorePayload]
        by_cases h : payloadHasScore r.result = true
        · rw [if_pos h, if_pos h, List.length_cons, ih]
          omega
        · rw [if_neg h, if_neg h, ih]
          omega
  · intro r kvs hr hk
    have hbase : extractCandidates [r] = candidatesOfPayload r.service_name r.result := by
      rw [extractCandidates, extractCandidates, List.append_nil]
    constructor
    · intro sc th tm h1 h2 h3
      rw [hbase, hr, candidatesOfPayload, if_pos hk, coerceCandidate, h1, h2, h3, coerceFields]
    · intro hbad
      rw [hbase, hr, candidatesOfPayload, if_pos hk, coerceCandidate]
      rcases hbad with h1 | h2 | h3
      · rw [h1]
        rcases hx : pyFloat (pyGetD kvs "threshold" (.num (1/2))) with - | q2 <;>
          rcases hy : pyFloat (pyGetD kvs "timing_ms" (.num 0)) with - | q3 <;>
            rfl
      · rw [h2]
        rcases hx : pyFloat (pyGetD kvs "score" (.num 0)) with - | q1 <;>
          rcases hy : pyFloat (pyGetD kvs "timing_ms" (.num 0)) with - | q3 <;>
            rfl
      · rw [h3]
        rcases hx : pyFloat (pyGetD kvs "score" (.num 0)) with - | q1 <;>
          rcases hy : pyFloat (pyGetD kvs "threshold" (.num (1/2))) with - | q2 <;>
            rfl

/-- C5 witness: a fully well-formed payload yields the candidate with
all four fields taken from the payload. -/
theorem C5_collective_default_witness :
    extractCandidates [outW "A" (97/100) true] =
      [⟨true, 97/100, 9/10, 5, .str "A"⟩] := by
  have h := ((C5_collective_default [outW "A" (97/100) true]).2 (outW "A" (97/100) true)
    [("is_me", .bool true), ("score", .num (97/100)), ("threshold", .num (9/10)),
      ("timing_ms", .num 5)] rfl rfl).1 (97/100) (9/10) 5 rfl rfl rfl
  rw [h]
  rfl

/-- C9 counterexample: a citation in which both a page field and a
section field are present but the page value is falsy (the empty
string) keeps the *section* and omits the page, contradicting
page-priority-by-presence. -/
theorem C9_page_priority_counterexample :
    normalize_citation citC9 = some [("doc", "D"), ("section", "12"), ("url", "")] ∧
    List.find? (fun p => p.1 == "page")
      [("doc", "D"), ("section", "12"), ("url", "")] = none ∧
    List.find? (fun p => p.1 == "section")
      [("doc", "D"), ("section", "12"), ("url", "")] = some ("section", "12") :=
  ⟨rfl, rfl, rfl⟩

/-- C9 (amended): for every citation dict with a truthy doc alias, the
citation is always kept; the normalized result carries `page` exactly
when the page alias value is truthy (and then `section` is omitted,
regardless of the section value); it carries `section` exactly when
the page alias is absent-or-falsy and the section alias is truthy; and
when neither is truthy both are omitted (with `url` defaulting to the
empty string). -/
theorem C9_page_priority (kvs : PyDict) (hdoc : (docAlias kvs).truthy = true) :
    ∃ l, normalize_citation (.obj kvs) = some l ∧
      ((pageAlias kvs).truthy = true →
        l = [("doc", pyStr (docAlias kvs)), ("page", pyStr (pageAlias kvs)),
             ("url", if (urlAlias kvs).truthy then pyStr (urlAlias kvs) else "")]) ∧
      ((pageAlias kvs).truthy = false → (sectionAlias kvs).truthy = true →
        l = [("doc", pyStr (docAlias kvs)), ("section", pyStr (sectionAlias kvs)),
             ("url", if (urlAlias kvs).truthy then pyStr (urlAlias kvs) else "")]) ∧
      ((pageAlias kvs).truthy = false → (sectionAlias kvs).truthy = false →
        l = [("doc", pyStr (docAlias kvs)),
             ("url", if (urlAlias kvs).truthy then pyStr (urlAlias kvs) else "")]) := by
  simp only [normalize_citation, hdoc, if_true]
  refine ⟨_, rfl, ?_, ?_, ?_⟩
  · intro hp
    simp [hp]
  · intro hp hs
    simp [hp, hs]
  · intro hp hs
    simp [hp, hs]

/-- C9 witness: a citation with truthy doc and page aliases is
normalized to doc, page and the defaulted url. -/
theorem C9_page_priority_witness :
    normalize_citation (.obj [("doc", .str "D"), ("page", .str "3")])
      = some [("doc", "D"), ("page", "3"), ("url", "")] := by
  obtain ⟨l, hl, hp, -, -⟩ :=
    C9_page_priority [("doc", .str "D"), ("page", .str "3")] rfl
  rw [hl, hp rfl]
  rfl

/-- C3: the fan-out's exception handler is misattributing synthetic
outcomes.  In registry `regC3` only service B is dispatched (A is
active but has an empty endpoint), so the exception of the single
gathered task — raised by the call to B — must be attributed to B; the
handler instead re-derives the descriptor list with the endpoint filter
dropped and attributes the fault (whose message is preserved, and which
is not re-raised) to A. -/
theorem C3_misattributed_exception :
    (dispatched regC3).map (fun v => pyGet v "name") = [.str "B"] ∧
    (identify_person_async regC3 [.exn "boom"]).map VerificationOutcome.service_name
      = [.str "A"] ∧
    (identify_person_async regC3 [.exn "boom"]).map VerificationOutcome.error
      = [some "boom"] ∧
    JValue.str "A" ≠ JValue.str "B" := by
  refine ⟨rfl, rfl, rfl, ?_⟩
  intro h
  injection h with h2
  exact absurd h2 (by decide)

end Ufro
